import Mathlib

/-!
Verification development for the mobile IPC-over-RPC multiplexer
(`MobileIpcTransport` in `src/tools/perf-tools/reporter/Reporter.ts`,
lines 50-135).  The multiplexer smuggles IPC envelopes over an RPC
channel: outbound envelopes are wrapped as synthetic RPC requests
(toward the backend) or synthetic fulfillments (toward the frontend),
and inbound RPC traffic addressed to the reserved sentinel interface
name is unwrapped and broadcast to registered listeners.

The marshaling codec (`RpcMarshaling`), the protocol codec
(`MobileRpcProtocol`) and the envelope/message declarations
(`IpcWebSocket`) are imported by the source file but are not part of
this repository snapshot; they are modelled from the spec where needed
(each such definition carries a `Modelled from the spec:` doc comment).
-/

namespace MobileIpc

/-- Modelled from the spec: the envelope type tag `IpcWebSocketMessageType`
(declared in `IpcWebSocket.ts`, which is missing from the snapshot).  The
spec enumerates four tags: Send, Invoke, Push, Response.  TypeScript
enums are number-valued, so the tag carrier is `Nat`; values outside the
enumerated ones are representable, as they are on the wire. -/
def IpcWebSocketMessageType.Send : Nat := 0

/-- Modelled from the spec: the Invoke envelope tag. -/
def IpcWebSocketMessageType.Invoke : Nat := 1

/-- Modelled from the spec: the Push envelope tag. -/
def IpcWebSocketMessageType.Push : Nat := 2

/-- Modelled from the spec: the Response envelope tag. -/
def IpcWebSocketMessageType.Response : Nat := 3

/-- Modelled from the spec: an IPC envelope (`IpcWebSocketMessage`,
declared in `IpcWebSocket.ts`, missing from the snapshot): a channel
identifier, a type tag, and an opaque payload (type parameter `P`). -/
structure IpcWebSocketMessage (P : Type) where
  channel : String
  type : Nat
  payload : P
deriving DecidableEq, Repr

/-- Modelled from the spec: the dynamically-typed value universe handled
by the marshaling codec.  A runtime value reaching `broadcast` is either
an IPC envelope, an array of values (the marshaling contract is
`deserialize(WireValue) -> value[]`), or `undefined` (indexing an empty
array in TypeScript). -/
inductive RpcValue (P : Type) where
  | envelope (m : IpcWebSocketMessage P)
  | array (vs : List (RpcValue P))
  | undefined

/-- Modelled from the spec: the error taxonomy of §7.  Marshaling
failures raise a `SerializationError`. -/
inductive MarshalError where
  | serializationError
deriving DecidableEq, Repr

/-- The RPC operation descriptor of a serialized request
(`operation.interfaceDefinition`, `operation.operationName`). -/
structure RpcOperation where
  interfaceDefinition : String
  operationName : String
deriving DecidableEq, Repr

/-- A serialized RPC request as consumed by `consumeRequest`: the
operation descriptor plus the marshaled parameter list (wire
representation `W`). -/
structure SerializedRpcRequest (W : Type) where
  operation : RpcOperation
  parameters : W
deriving DecidableEq, Repr

/-- An RPC fulfillment as consumed by `consumeResponse` and produced by
`sendToFrontend`: marshaled `result`, pre-marshaled `rawResult`,
`interfaceName`, correlation `id`, numeric `status`. -/
structure RpcRequestFulfillment (P W : Type) where
  result : W
  rawResult : RpcValue P
  interfaceName : String
  id : String
  status : Nat

/-- Modelled from the spec: the marshaling codec contract of §4.4
(`RpcMarshaling` is not in the snapshot): `serialize(value) -> WireValue`
and `deserialize(WireValue) -> value[]`, either side may fail with a
`SerializationError`.  The multiplexer treats it as a black box; the
claims that need it assume the lossless round-trip property as a
hypothesis. -/
structure RpcMarshaling (P W : Type) where
  serialize : RpcValue P → Except MarshalError W
  deserialize : W → Except MarshalError (List (RpcValue P))

/-- Modelled from the spec: the single encoded byte/message form the
protocol codec (`MobileRpcProtocol`, not in the snapshot) produces; the
spec requires encoder and decoder to be bit-exact inverses, so the
encoded form is modelled as a tagged pairing of the logical request or
fulfillment. -/
inductive MobileEncoded (P W : Type) where
  | request (r : SerializedRpcRequest W)
  | response (f : RpcRequestFulfillment P W)

/-- Modelled from the spec: `MobileRpcProtocol.encodeRequest` (§4.3),
pure and deterministic. -/
def MobileRpcProtocol.encodeRequest {P W : Type} (r : SerializedRpcRequest W) :
    MobileEncoded P W :=
  .request r

/-- Modelled from the spec: `MobileRpcProtocol.encodeResponse` (§4.3). -/
def MobileRpcProtocol.encodeResponse {P W : Type} (f : RpcRequestFulfillment P W) :
    MobileEncoded P W :=
  .response f

/-- Modelled from the spec: the receiving side's decoder (§4.3),
distinguishing requests from responses and inverting the encoder. -/
def MobileRpcProtocol.decode {P W : Type} (e : MobileEncoded P W) :
    Sum (SerializedRpcRequest W) (RpcRequestFulfillment P W) :=
  match e with
  | .request r => .inl r
  | .response f => .inr f

/-- The reserved sentinel interface name (`const IPC = "__ipc__"`,
Reporter.ts line 65). -/
def IPC : String := "__ipc__"

/-- The observable state of one `MobileIpcTransport` instance.
`listeners` is the `_listeners` array, with handlers identified by
numeric ids; `backendOutbox` and `frontendOutbox` record the encoded
messages handed to `protocol.sendToBackend` / `protocol.sendToFrontend`;
`deliveries` is the ordered log of listener invocations (listener id
paired with the runtime value the handler received). -/
structure MobileIpcTransportState (P W : Type) where
  listeners : List Nat
  backendOutbox : List (MobileEncoded P W)
  frontendOutbox : List (MobileEncoded P W)
  deliveries : List (Nat × RpcValue P)

/-- The state of a freshly constructed transport: `_listeners` starts
empty (Reporter.ts line 76) and nothing has been sent or delivered. -/
def initialState (P W : Type) : MobileIpcTransportState P W :=
  ⟨[], [], [], []⟩

/-- A listener environment: the effect a handler has on the transport
when invoked.  Handler `lid`, invoked with value `v`, registers the
handlers `env lid v` (each via `listen`); a handler that does not call
`listen` yields `[]`. -/
def ListenerEnv (P : Type) : Type :=
  Nat → RpcValue P → List Nat

/-- `listen(handler)` (Reporter.ts lines 95-97): pushes the handler onto
the `_listeners` array. -/
def listen {P W : Type} (st : MobileIpcTransportState P W) (handlerId : Nat) :
    MobileIpcTransportState P W :=
  { st with listeners := st.listeners ++ [handlerId] }

/-- The loop body of `broadcast` (Reporter.ts lines 131-134):
`for (const listener of this._listeners) listener(message);`.
A JavaScript `for...of` over an array iterates the LIVE array: each step
checks the index against the array's current length, so handlers pushed
during the iteration are reached by it.  `i` is the iterator index and
`fuel` bounds the number of steps (the loop itself terminates only while
listeners stop registering new ones). -/
def broadcastFrom {P W : Type} (env : ListenerEnv P) (msg : RpcValue P) :
    Nat → Nat → MobileIpcTransportState P W → MobileIpcTransportState P W
  | 0, _, st => st
  | fuel + 1, i, st =>
    match st.listeners.get? i with
    | none => st
    | some lid =>
      broadcastFrom env msg fuel (i + 1)
        { st with
          deliveries := st.deliveries ++ [(lid, msg)]
          listeners := st.listeners ++ env lid msg }

/-- `broadcast(message)` (Reporter.ts lines 131-134): invoke every
listener with the message, starting the live iteration at index 0. -/
def broadcast {P W : Type} (env : ListenerEnv P) (fuel : Nat) (msg : RpcValue P)
    (st : MobileIpcTransportState P W) : MobileIpcTransportState P W :=
  broadcastFrom env msg fuel 0 st

/-- `sendToBackend(message)` (Reporter.ts lines 117-122): build the
synthetic request `new MobileRpcRequest(client, "send", [message])`
targeting the sentinel interface, marshal the envelope as its sole
argument, encode, and hand the encoding to `protocol.sendToBackend`.
Fails (rejecting the async body's promise) when marshaling fails. -/
def sendToBackend {P W : Type} (codec : RpcMarshaling P W)
    (message : IpcWebSocketMessage P) (st : MobileIpcTransportState P W) :
    Except MarshalError (MobileIpcTransportState P W) :=
  match codec.serialize (.envelope message) with
  | .error e => .error e
  | .ok params =>
    .ok { st with
      backendOutbox := st.backendOutbox ++
        [MobileRpcProtocol.encodeRequest ⟨⟨IPC, "send"⟩, params⟩] }

/-- `sendToFrontend(message)` (Reporter.ts lines 124-129): marshal the
envelope as the `result` of a synthetic fulfillment with
`rawResult = message`, `interfaceName = IPC`, `id = message.channel`,
`status = 0`; encode and hand to `protocol.sendToFrontend`. -/
def sendToFrontend {P W : Type} (codec : RpcMarshaling P W)
    (message : IpcWebSocketMessage P) (st : MobileIpcTransportState P W) :
    Except MarshalError (MobileIpcTransportState P W) :=
  match codec.serialize (.envelope message) with
  | .error e => .error e
  | .ok result =>
    .ok { st with
      frontendOutbox := st.frontendOutbox ++
        [MobileRpcProtocol.encodeResponse
          ⟨result, .envelope message, IPC, message.channel, 0⟩] }

/-- `send(message)` (Reporter.ts lines 87-93): route by `message.type`.
`Send`/`Invoke` go to `sendToBackend`, `Push`/`Response` go to
`sendToFrontend`; both are invoked WITHOUT `await` (the source carries
an `eslint-disable no-floating-promises` comment), so a failure rejects
a floating promise that no caller observes.  The first component is the
synchronous outcome seen by `send`'s caller (an `Except.error` there
would mean a synchronous throw; the async bodies never throw
synchronously), threaded with the state after the floating body
settles; the second component is the floating promise's rejection, if
any. -/
def send {P W : Type} (codec : RpcMarshaling P W)
    (st : MobileIpcTransportState P W) (message : IpcWebSocketMessage P) :
    Except MarshalError (MobileIpcTransportState P W) × Option MarshalError :=
  if message.type = IpcWebSocketMessageType.Send ∨
      message.type = IpcWebSocketMessageType.Invoke then
    match sendToBackend codec message st with
    | .ok st' => (.ok st', none)
    | .error e => (.ok st, some e)
  else if message.type = IpcWebSocketMessageType.Push ∨
      message.type = IpcWebSocketMessageType.Response then
    match sendToFrontend codec message st with
    | .ok st' => (.ok st', none)
    | .error e => (.ok st, some e)
  else
    (.ok st, none)

/-- `consumeRequest(request)` (Reporter.ts lines 99-106): if the
request's `operation.interfaceDefinition` is not the sentinel, return
`false` untouched; otherwise deserialize the parameters, take element 0
of the resulting array (`undefined` when the array is empty), broadcast
it and return `true`.  A deserialization failure propagates to the
caller as an exception (there is no try/catch), leaving the state
unchanged. -/
def consumeRequest {P W : Type} (env : ListenerEnv P) (fuel : Nat)
    (codec : RpcMarshaling P W) (st : MobileIpcTransportState P W)
    (request : SerializedRpcRequest W) :
    Except MarshalError Bool × MobileIpcTransportState P W :=
  if request.operation.interfaceDefinition ≠ IPC then
    (.ok false, st)
  else
    match codec.deserialize request.parameters with
    | .error e => (.error e, st)
    | .ok vs => (.ok true, broadcast env fuel (vs.headD .undefined) st)

/-- `consumeResponse(response)` (Reporter.ts lines 108-115): if the
fulfillment's `interfaceName` is not the sentinel, return `false`
untouched; otherwise deserialize `result` and broadcast the
deserialized value (the code applies no index to it: the value handed
to `broadcast` is exactly what `deserialize` returns, here the array),
returning `true`.  A deserialization failure propagates as an
exception, leaving the state unchanged. -/
def consumeResponse {P W : Type} (env : ListenerEnv P) (fuel : Nat)
    (codec : RpcMarshaling P W) (st : MobileIpcTransportState P W)
    (response : RpcRequestFulfillment P W) :
    Except MarshalError Bool × MobileIpcTransportState P W :=
  if response.interfaceName ≠ IPC then
    (.ok false, st)
  else
    match codec.deserialize response.result with
    | .error e => (.error e, st)
    | .ok vs => (.ok true, broadcast env fuel (.array vs) st)

/-- A concrete marshaling codec for evaluating claims on explicit
inputs: the wire form is the deserialized value array itself, so
`deserialize (serialize v) = [v]` holds definitionally and the codec
satisfies the spec's lossless round-trip contract. -/
def listCodec (P : Type) : RpcMarshaling P (List (RpcValue P)) :=
  ⟨fun v => .ok [v], fun w => .ok w⟩

/-- A concrete codec that rejects the empty wire value as corrupt and
passes any non-empty one through, for exercising the malformed-payload
paths next to well-formed ones. -/
def headCodec (P : Type) : RpcMarshaling P (List (RpcValue P)) :=
  ⟨fun v => .ok [v],
    fun w => match w with
      | [] => .error .serializationError
      | vs => .ok vs⟩

/-- A concrete codec whose marshaling always fails with a
`SerializationError`, for evaluating the outbound-failure claims. -/
def failCodec (P W : Type) : RpcMarshaling P W :=
  ⟨fun _ => .error .serializationError, fun _ => .error .serializationError⟩

/-- A concrete listener environment in which handler 0, when invoked,
registers handler 1 (a reentrant call to `listen` from inside a
handler), and every other handler registers nothing. -/
def reentrantEnv (P : Type) : ListenerEnv P :=
  fun lid _ => if lid = 0 then [1] else []

/-- The live-array iteration of `broadcastFrom` only ever appends to the
listener array: the listeners present when the loop starts are a prefix
of the listeners present when it ends. -/
theorem broadcastFrom_listeners_extend {P W : Type} (env : ListenerEnv P)
    (msg : RpcValue P) :
    ∀ (fuel i : Nat) (st : MobileIpcTransportState P W),
      st.listeners <+: (broadcastFrom env msg fuel i st).listeners := by
  intro fuel
  induction fuel with
  | zero =>
    intro i st
    exact ⟨[], by simp [broadcastFrom]⟩
  | succ n ih =>
    intro i st
    simp only [broadcastFrom]
    split
    next => exact ⟨[], by simp⟩
    next lid h =>
      exact List.IsPrefix.trans ⟨env lid msg, rfl⟩
        (ih (i + 1)
          { st with
            deliveries := st.deliveries ++ [(lid, msg)]
            listeners := st.listeners ++ env lid msg })

/-- When no handler reachable in the loop registers new listeners, the
live iteration from index `i` delivers the message to each listener
from index `i` on, in order, and changes nothing else; `fuel` suffices
as soon as it covers the remaining listeners. -/
theorem broadcastFrom_of_no_reentry {P W : Type} (env : ListenerEnv P)
    (msg : RpcValue P) (henv : ∀ lid, env lid msg = []) :
    ∀ (fuel i : Nat) (st : MobileIpcTransportState P W),
      st.listeners.length ≤ i + fuel →
      broadcastFrom env msg fuel i st =
        { st with deliveries :=
            st.deliveries ++ (st.listeners.drop i).map (fun lid => (lid, msg)) } := by
  intro fuel
  induction fuel with
  | zero =>
    intro i st hle
    have hdrop : st.listeners.drop i = [] := List.drop_eq_nil_of_le (by omega)
    simp [broadcastFrom, hdrop]
  | succ n ih =>
    intro i st hle
    simp only [broadcastFrom]
    split
    next h =>
      have hlen : st.listeners.length ≤ i := List.get?_eq_none.mp h
      have hdrop : st.listeners.drop i = [] := List.drop_eq_nil_of_le hlen
      simp [hdrop]
    next lid h =>
      have hspec := List.get?_eq_some.mp h
      have hlt : i < st.listeners.length := hspec.choose
      have hget : st.listeners[i] = lid := by
        simpa [List.get_eq_getElem] using hspec.choose_spec
      have hdrop : st.listeners.drop i = lid :: st.listeners.drop (i + 1) := by
        rw [List.drop_eq_getElem_cons hlt, hget]
      have hrec := ih (i + 1)
        { st with deliveries := st.deliveries ++ [(lid, msg)] }
        (by change st.listeners.length ≤ i + 1 + n; omega)
      rw [henv lid, List.append_nil, hrec, hdrop]
      simp

/-- `broadcast` with non-reentrant handlers: every registered listener
receives the message exactly once, in registration order, and the
listener array and outboxes are untouched. -/
theorem broadcast_of_no_reentry {P W : Type} (env : ListenerEnv P)
    (msg : RpcValue P) (henv : ∀ lid, env lid msg = []) (fuel : Nat)
    (st : MobileIpcTransportState P W) (hfuel : st.listeners.length ≤ fuel) :
    broadcast env fuel msg st =
      { st with deliveries :=
          st.deliveries ++ st.listeners.map (fun lid => (lid, msg)) } := by
  have := broadcastFrom_of_no_reentry env msg henv fuel 0 st (by omega)
  simpa [broadcast] using this

/-- Registering a list of handlers in order via `listen` appends them to
the listener array and touches nothing else. -/
theorem foldl_listen {P W : Type} :
    ∀ (hs : List Nat) (st : MobileIpcTransportState P W),
      hs.foldl (fun s h => listen s h) st =
        { st with listeners := st.listeners ++ hs } := by
  intro hs
  induction hs with
  | nil => intro st; simp
  | cons h t ih =>
    intro st
    rw [List.foldl_cons, ih]
    simp [listen]

/-- A successful `sendToBackend` only appends to the backend outbox;
the listener array is untouched. -/
theorem sendToBackend_ok_listeners {P W : Type} (codec : RpcMarshaling P W)
    (m : IpcWebSocketMessage P) (st st' : MobileIpcTransportState P W)
    (h : sendToBackend codec m st = .ok st') : st'.listeners = st.listeners := by
  unfold sendToBackend at h
  split at h
  · simp at h
  · cases h
    rfl

/-- A successful `sendToFrontend` only appends to the frontend outbox;
the listener array is untouched. -/
theorem sendToFrontend_ok_listeners {P W : Type} (codec : RpcMarshaling P W)
    (m : IpcWebSocketMessage P) (st st' : MobileIpcTransportState P W)
    (h : sendToFrontend codec m st = .ok st') : st'.listeners = st.listeners := by
  unfold sendToFrontend at h
  split at h
  · simp at h
  · cases h
    rfl

/-- When marshaling succeeds, `sendToBackend` appends exactly the
encoded synthetic sentinel request to the backend outbox. -/
theorem sendToBackend_ok {P W : Type} (codec : RpcMarshaling P W)
    (m : IpcWebSocketMessage P) (st : MobileIpcTransportState P W) (w : W)
    (hser : codec.serialize (.envelope m) = .ok w) :
    sendToBackend codec m st =
      .ok { st with backendOutbox := st.backendOutbox ++
        [.request ⟨⟨IPC, "send"⟩, w⟩] } := by
  unfold sendToBackend
  rw [hser]
  rfl

/-- When marshaling fails, `sendToBackend` fails with that error and
changes nothing. -/
theorem sendToBackend_error {P W : Type} (codec : RpcMarshaling P W)
    (m : IpcWebSocketMessage P) (st : MobileIpcTransportState P W)
    (er : MarshalError) (hser : codec.serialize (.envelope m) = .error er) :
    sendToBackend codec m st = .error er := by
  unfold sendToBackend
  rw [hser]

/-- When marshaling succeeds, `sendToFrontend` appends exactly the
encoded synthetic sentinel fulfillment to the frontend outbox. -/
theorem sendToFrontend_ok {P W : Type} (codec : RpcMarshaling P W)
    (m : IpcWebSocketMessage P) (st : MobileIpcTransportState P W) (w : W)
    (hser : codec.serialize (.envelope m) = .ok w) :
    sendToFrontend codec m st =
      .ok { st with frontendOutbox := st.frontendOutbox ++
        [.response ⟨w, .envelope m, IPC, m.channel, 0⟩] } := by
  unfold sendToFrontend
  rw [hser]
  rfl

/-- When marshaling fails, `sendToFrontend` fails with that error and
changes nothing. -/
theorem sendToFrontend_error {P W : Type} (codec : RpcMarshaling P W)
    (m : IpcWebSocketMessage P) (st : MobileIpcTransportState P W)
    (er : MarshalError) (hser : codec.serialize (.envelope m) = .error er) :
    sendToFrontend codec m st = .error er := by
  unfold sendToFrontend
  rw [hser]

/-- `consumeRequest` on a sentinel-addressed request whose parameters
deserialize to `vs` broadcasts element 0 of `vs` and reports `true`. -/
theorem consumeRequest_sentinel_ok {P W : Type} (env : ListenerEnv P)
    (fuel : Nat) (codec : RpcMarshaling P W) (st : MobileIpcTransportState P W)
    (op : String) (w : W) (vs : List (RpcValue P))
    (hde : codec.deserialize w = .ok vs) :
    consumeRequest env fuel codec st ⟨⟨IPC, op⟩, w⟩ =
      (.ok true, broadcast env fuel (vs.headD .undefined) st) := by
  unfold consumeRequest
  rw [if_neg (by simp), hde]

/-- `consumeRequest` on a sentinel-addressed request whose parameters
fail to deserialize propagates the error and leaves the state
unchanged. -/
theorem consumeRequest_sentinel_error {P W : Type} (env : ListenerEnv P)
    (fuel : Nat) (codec : RpcMarshaling P W) (st : MobileIpcTransportState P W)
    (op : String) (w : W) (er : MarshalError)
    (hde : codec.deserialize w = .error er) :
    consumeRequest env fuel codec st ⟨⟨IPC, op⟩, w⟩ = (.error er, st) := by
  unfold consumeRequest
  rw [if_neg (by simp), hde]

/-- `consumeResponse` on a sentinel-named fulfillment whose result
deserializes to `vs` broadcasts the array `vs` itself (the code applies
no index to the deserialized value) and reports `true`. -/
theorem consumeResponse_sentinel_ok {P W : Type} (env : ListenerEnv P)
    (fuel : Nat) (codec : RpcMarshaling P W) (st : MobileIpcTransportState P W)
    (w : W) (raw : RpcValue P) (idv : String) (stat : Nat)
    (vs : List (RpcValue P)) (hde : codec.deserialize w = .ok vs) :
    consumeResponse env fuel codec st ⟨w, raw, IPC, idv, stat⟩ =
      (.ok true, broadcast env fuel (.array vs) st) := by
  unfold consumeResponse
  rw [if_neg (by simp), hde]

/-- `consumeResponse` on a sentinel-named fulfillment whose result
fails to deserialize propagates the error and leaves the state
unchanged. -/
theorem consumeResponse_sentinel_error {P W : Type} (env : ListenerEnv P)
    (fuel : Nat) (codec : RpcMarshaling P W) (st : MobileIpcTransportState P W)
    (w : W) (raw : RpcValue P) (idv : String) (stat : Nat) (er : MarshalError)
    (hde : codec.deserialize w = .error er) :
    consumeResponse env fuel codec st ⟨w, raw, IPC, idv, stat⟩ =
      (.error er, st) := by
  unfold consumeResponse
  rw [if_neg (by simp), hde]

/-- C3: a serialized RPC request whose `operation.interfaceDefinition`
is not the sentinel `"__ipc__"` is declined by `consumeRequest`: it
returns `false`, no listener is invoked, and the multiplexer state is
returned unchanged, leaving the request for downstream RPC dispatch. -/
theorem c3_non_sentinel_request_declined {P W : Type} (env : ListenerEnv P)
    (fuel : Nat) (codec : RpcMarshaling P W) (st : MobileIpcTransportState P W)
    (request : SerializedRpcRequest W)
    (h : request.operation.interfaceDefinition ≠ IPC) :
    consumeRequest env fuel codec st request = (.ok false, st) := by
  simp [consumeRequest, h]

/-- Witness for C3 at a concrete non-sentinel request. -/
theorem c3_witness :
    ((⟨⟨"appInterface", "op"⟩, []⟩ : SerializedRpcRequest
        (List (RpcValue Nat))).operation.interfaceDefinition ≠ IPC)
    ∧ consumeRequest (fun _ _ => []) 1 (listCodec Nat)
        (initialState Nat (List (RpcValue Nat))) ⟨⟨"appInterface", "op"⟩, []⟩ =
      (.ok false, initialState Nat (List (RpcValue Nat))) :=
  ⟨by decide,
    c3_non_sentinel_request_declined (fun _ _ => []) 1 (listCodec Nat)
      (initialState Nat (List (RpcValue Nat))) ⟨⟨"appInterface", "op"⟩, []⟩
      (by decide)⟩

/-- C9: the listener registry is append-only across every operation of
the multiplexer: `listen` appends the new handler at the end, and
`send`, `consumeRequest` and `consumeResponse` each leave the listener
array an extension of what it was (never removing or reordering
previously registered listeners); no unlisten operation exists in the
model because none exists in the source. -/
theorem c9_listener_registry_append_only {P W : Type} (env : ListenerEnv P)
    (fuel : Nat) (codec : RpcMarshaling P W) (st : MobileIpcTransportState P W)
    (m : IpcWebSocketMessage P) (handlerId : Nat)
    (request : SerializedRpcRequest W) (response : RpcRequestFulfillment P W) :
    (listen st handlerId).listeners = st.listeners ++ [handlerId]
    ∧ (∀ st', (send codec st m).1 = .ok st' → st.listeners <+: st'.listeners)
    ∧ st.listeners <+: (consumeRequest env fuel codec st request).2.listeners
    ∧ st.listeners <+: (consumeResponse env fuel codec st response).2.listeners := by
  refine ⟨rfl, ?_, ?_, ?_⟩
  · intro st' hok
    unfold send at hok
    split at hok
    · cases hb : sendToBackend codec m st with
      | ok st2 =>
        rw [hb] at hok
        simp at hok
        exact ⟨[], by simp [hok ▸ sendToBackend_ok_listeners codec m st st2 hb]⟩
      | error e =>
        rw [hb] at hok
        simp at hok
        exact ⟨[], by simp [hok]⟩
    split at hok
    · cases hb : sendToFrontend codec m st with
      | ok st2 =>
        rw [hb] at hok
        simp at hok
        exact ⟨[], by simp [hok ▸ sendToFrontend_ok_listeners codec m st st2 hb]⟩
      | error e =>
        rw [hb] at hok
        simp at hok
        exact ⟨[], by simp [hok]⟩
    · simp at hok
      exact ⟨[], by simp [hok]⟩
  · unfold consumeRequest
    split
    · exact ⟨[], by simp⟩
    split
    · exact ⟨[], by simp⟩
    · exact broadcastFrom_listeners_extend env _ fuel 0 st
  · unfold consumeResponse
    split
    · exact ⟨[], by simp⟩
    split
    · exact ⟨[], by simp⟩
    · exact broadcastFrom_listeners_extend env _ fuel 0 st

/-- Witness for C9 at concrete inputs: registration appends, and a
concrete successful `send` leaves the previously registered listener
list a prefix of the new one. -/
theorem c9_witness :
    (listen (⟨[2], [], [], []⟩ :
        MobileIpcTransportState Nat (List (RpcValue Nat))) 3).listeners =
      [2] ++ [3]
    ∧ ((send (listCodec Nat)
        (⟨[2], [], [], []⟩ : MobileIpcTransportState Nat (List (RpcValue Nat)))
        ⟨"a", 0, 5⟩).1 =
      .ok ⟨[2], [.request ⟨⟨IPC, "send"⟩, [.envelope ⟨"a", 0, 5⟩]⟩], [], []⟩)
    ∧ ([2] : List Nat) <+:
        (⟨[2], [.request ⟨⟨IPC, "send"⟩, [.envelope ⟨"a", 0, 5⟩]⟩], [], []⟩ :
          MobileIpcTransportState Nat (List (RpcValue Nat))).listeners
    ∧ ([2] : List Nat) <+:
        (consumeRequest (fun _ _ => []) 1 (listCodec Nat)
          (⟨[2], [], [], []⟩ :
            MobileIpcTransportState Nat (List (RpcValue Nat)))
          ⟨⟨IPC, "send"⟩, [.envelope ⟨"a", 0, 5⟩]⟩).2.listeners :=
  ⟨(c9_listener_registry_append_only (fun _ _ => []) 1 (listCodec Nat)
      ⟨[2], [], [], []⟩ ⟨"a", 0, 5⟩ 3 ⟨⟨IPC, "send"⟩, [.envelope ⟨"a", 0, 5⟩]⟩
      ⟨[], .undefined, IPC, "x", 0⟩).1,
    rfl,
    (c9_listener_registry_append_only (fun _ _ => []) 1 (listCodec Nat)
      ⟨[2], [], [], []⟩ ⟨"a", 0, 5⟩ 3 ⟨⟨IPC, "send"⟩, [.envelope ⟨"a", 0, 5⟩]⟩
      ⟨[], .undefined, IPC, "x", 0⟩).2.1
      ⟨[2], [.request ⟨⟨IPC, "send"⟩, [.envelope ⟨"a", 0, 5⟩]⟩], [], []⟩ rfl,
    (c9_listener_registry_append_only (fun _ _ => []) 1 (listCodec Nat)
      ⟨[2], [], [], []⟩ ⟨"a", 0, 5⟩ 3 ⟨⟨IPC, "send"⟩, [.envelope ⟨"a", 0, 5⟩]⟩
      ⟨[], .undefined, IPC, "x", 0⟩).2.2.1⟩

/-- C10: a message whose `type` is none of the four enumerated tags
falls through both branches of `send`'s if/else-if chain: no error is
raised, nothing is handed to either transport direction, and the state
is unchanged — the message is silently dropped. -/
theorem c10_unknown_type_silently_dropped {P W : Type}
    (codec : RpcMarshaling P W) (st : MobileIpcTransportState P W)
    (m : IpcWebSocketMessage P)
    (h1 : m.type ≠ IpcWebSocketMessageType.Send)
    (h2 : m.type ≠ IpcWebSocketMessageType.Invoke)
    (h3 : m.type ≠ IpcWebSocketMessageType.Push)
    (h4 : m.type ≠ IpcWebSocketMessageType.Response) :
    send codec st m = (.ok st, none) := by
  simp [send, h1, h2, h3, h4]

/-- Witness for C10 at a concrete out-of-range type tag (9). -/
theorem c10_witness :
    ((⟨"ch", 9, 0⟩ : IpcWebSocketMessage Nat).type ≠ IpcWebSocketMessageType.Send)
    ∧ ((⟨"ch", 9, 0⟩ : IpcWebSocketMessage Nat).type ≠ IpcWebSocketMessageType.Invoke)
    ∧ ((⟨"ch", 9, 0⟩ : IpcWebSocketMessage Nat).type ≠ IpcWebSocketMessageType.Push)
    ∧ ((⟨"ch", 9, 0⟩ : IpcWebSocketMessage Nat).type ≠ IpcWebSocketMessageType.Response)
    ∧ send (listCodec Nat) (initialState Nat (List (RpcValue Nat))) ⟨"ch", 9, 0⟩ =
      (.ok (initialState Nat (List (RpcValue Nat))), none) :=
  ⟨by decide, by decide, by decide, by decide,
    c10_unknown_type_silently_dropped (listCodec Nat)
      (initialState Nat (List (RpcValue Nat))) ⟨"ch", 9, 0⟩
      (by decide) (by decide) (by decide) (by decide)⟩

/-- C4: registering N listeners via `listen` before one inbound
sentinel-tagged envelope arrives yields exactly N deliveries, one per
registered listener, each receiving the identical envelope value, in
registration order, synchronously within the `consumeRequest` dispatch
(the hypothesis `henv` says the registered handlers do not themselves
register further listeners, and `hfuel` lets the live iteration cover
all of them). -/
theorem c4_broadcast_fanout {P W : Type} (codec : RpcMarshaling P W)
    (env : ListenerEnv P) (hs : List Nat) (e : IpcWebSocketMessage P) (w : W)
    (fuel : Nat) (op : String)
    (henv : ∀ lid, env lid (.envelope e) = [])
    (hde : codec.deserialize w = .ok [.envelope e])
    (hfuel : hs.length ≤ fuel) :
    consumeRequest env fuel codec
      (hs.foldl (fun s h => listen s h) (initialState P W)) ⟨⟨IPC, op⟩, w⟩ =
      (.ok true,
        { listeners := hs, backendOutbox := [], frontendOutbox := [],
          deliveries := hs.map (fun lid => (lid, .envelope e)) }) := by
  rw [foldl_listen,
    consumeRequest_sentinel_ok env fuel codec _ op w [.envelope e] hde]
  simp only [List.headD_cons]
  rw [broadcast_of_no_reentry env (RpcValue.envelope e) henv fuel
    { initialState P W with
      listeners := (initialState P W).listeners ++ hs }
    (by simpa [initialState] using hfuel)]
  simp [initialState]

/-- Witness for C4: two listeners (ids 5 and 6) registered before a
concrete sentinel request arrives are each delivered the envelope, in
order. -/
theorem c4_witness :
    (∀ lid : Nat, (fun (_ : Nat) (_ : RpcValue Nat) => ([] : List Nat)) lid
        (.envelope ⟨"ui-sync", 1, 42⟩) = [])
    ∧ ((listCodec Nat).deserialize [.envelope ⟨"ui-sync", 1, 42⟩] =
        .ok [.envelope ⟨"ui-sync", 1, 42⟩])
    ∧ (([5, 6] : List Nat).length ≤ 2)
    ∧ consumeRequest (fun _ _ => []) 2 (listCodec Nat)
        (([5, 6] : List Nat).foldl (fun s h => listen s h)
          (initialState Nat (List (RpcValue Nat))))
        ⟨⟨IPC, "send"⟩, [.envelope ⟨"ui-sync", 1, 42⟩]⟩ =
      (.ok true,
        { listeners := [5, 6], backendOutbox := [], frontendOutbox := [],
          deliveries := [(5, .envelope ⟨"ui-sync", 1, 42⟩),
                         (6, .envelope ⟨"ui-sync", 1, 42⟩)] }) :=
  ⟨fun _ => rfl, rfl, by decide,
    c4_broadcast_fanout (listCodec Nat) (fun _ _ => []) [5, 6]
      ⟨"ui-sync", 1, 42⟩ [.envelope ⟨"ui-sync", 1, 42⟩] 2 "send"
      (fun _ => rfl) rfl (by decide)⟩

/-- C7: `send` routes by the envelope's type tag.  For `Send`/`Invoke`
it marshals the envelope as the sole argument of a synthetic RPC
request addressed to the sentinel interface (operation `"send"`),
encodes it and hands it to the backend-bound transport; for
`Push`/`Response` it marshals the envelope as the `result` of a
synthetic fulfillment with `id` equal to the envelope's channel,
`interfaceName` equal to the sentinel and status 0, encodes it and
hands it to the frontend-bound transport. -/
theorem c7_send_routes_by_type {P W : Type} (codec : RpcMarshaling P W)
    (st : MobileIpcTransportState P W) (m : IpcWebSocketMessage P) (w : W)
    (hser : codec.serialize (.envelope m) = .ok w) :
    ((m.type = IpcWebSocketMessageType.Send ∨
        m.type = IpcWebSocketMessageType.Invoke) →
      send codec st m =
        (.ok { st with backendOutbox := st.backendOutbox ++
            [.request ⟨⟨IPC, "send"⟩, w⟩] }, none))
    ∧ ((m.type = IpcWebSocketMessageType.Push ∨
        m.type = IpcWebSocketMessageType.Response) →
      send codec st m =
        (.ok { st with frontendOutbox := st.frontendOutbox ++
            [.response ⟨w, .envelope m, IPC, m.channel, 0⟩] }, none)) := by
  constructor
  · intro h
    rw [send, if_pos h, sendToBackend_ok codec m st w hser]
  · intro h
    have hne : ¬(m.type = IpcWebSocketMessageType.Send ∨
        m.type = IpcWebSocketMessageType.Invoke) := by
      rcases h with h | h <;> rw [h] <;> decide
    rw [send, if_neg hne, if_pos h, sendToFrontend_ok codec m st w hser]

/-- Witness for C7: a concrete Send-typed envelope goes to the backend
outbox as a sentinel request, and a concrete Push-typed envelope goes
to the frontend outbox as a sentinel fulfillment. -/
theorem c7_witness :
    ((listCodec Nat).serialize (.envelope ⟨"a", 0, 5⟩) =
        .ok [.envelope ⟨"a", 0, 5⟩])
    ∧ send (listCodec Nat) (initialState Nat (List (RpcValue Nat))) ⟨"a", 0, 5⟩ =
        (.ok { initialState Nat (List (RpcValue Nat)) with
          backendOutbox := [.request ⟨⟨IPC, "send"⟩, [.envelope ⟨"a", 0, 5⟩]⟩] },
          none)
    ∧ send (listCodec Nat) (initialState Nat (List (RpcValue Nat))) ⟨"b", 2, 6⟩ =
        (.ok { initialState Nat (List (RpcValue Nat)) with
          frontendOutbox := [.response
            ⟨[.envelope ⟨"b", 2, 6⟩], .envelope ⟨"b", 2, 6⟩, IPC, "b", 0⟩] },
          none) :=
  ⟨rfl,
    by
      have := (c7_send_routes_by_type (listCodec Nat)
        (initialState Nat (List (RpcValue Nat))) ⟨"a", 0, 5⟩
        [.envelope ⟨"a", 0, 5⟩] rfl).1 (Or.inl rfl)
      simpa [initialState] using this,
    by
      have := (c7_send_routes_by_type (listCodec Nat)
        (initialState Nat (List (RpcValue Nat))) ⟨"b", 2, 6⟩
        [.envelope ⟨"b", 2, 6⟩] rfl).2 (Or.inl rfl)
      simpa [initialState] using this⟩

/-- C1: wrap/unwrap round-trip for frontend-to-backend traffic.  Under
the lossless-round-trip hypothesis on the marshaling codec,
`sendToBackend` wraps envelope `e` as a synthetic sentinel request (the
encoded form handed to the transport), the protocol decoder on the
receiving side recovers that request, and `consumeRequest` on it
broadcasts exactly the envelope `e` — channel, type and payload
preserved; with non-reentrant listeners every registered listener
receives `e` itself. -/
theorem c1_wrap_unwrap_roundtrip {P W : Type} (codec : RpcMarshaling P W)
    (e : IpcWebSocketMessage P) (w : W) (env : ListenerEnv P) (fuel : Nat)
    (sender receiver : MobileIpcTransportState P W)
    (htype : e.type = IpcWebSocketMessageType.Send ∨
      e.type = IpcWebSocketMessageType.Invoke ∨
      e.type = IpcWebSocketMessageType.Push ∨
      e.type = IpcWebSocketMessageType.Response)
    (hser : codec.serialize (.envelope e) = .ok w)
    (hde : codec.deserialize w = .ok [.envelope e]) :
    sendToBackend codec e sender =
      .ok { sender with backendOutbox := sender.backendOutbox ++
        [.request ⟨⟨IPC, "send"⟩, w⟩] }
    ∧ MobileRpcProtocol.decode (P := P) (.request ⟨⟨IPC, "send"⟩, w⟩) =
        .inl ⟨⟨IPC, "send"⟩, w⟩
    ∧ consumeRequest env fuel codec receiver ⟨⟨IPC, "send"⟩, w⟩ =
        (.ok true, broadcast env fuel (.envelope e) receiver)
    ∧ ((∀ lid, env lid (.envelope e) = []) → receiver.listeners.length ≤ fuel →
        (consumeRequest env fuel codec receiver ⟨⟨IPC, "send"⟩, w⟩).2.deliveries =
          receiver.deliveries ++
            receiver.listeners.map (fun lid => (lid, .envelope e))) := by
  have hc : consumeRequest env fuel codec receiver ⟨⟨IPC, "send"⟩, w⟩ =
      (.ok true, broadcast env fuel (.envelope e) receiver) :=
    consumeRequest_sentinel_ok env fuel codec receiver "send" w [.envelope e] hde
  refine ⟨sendToBackend_ok codec e sender w hser, rfl, hc, ?_⟩
  intro henv hfuel
  rw [hc, broadcast_of_no_reentry env (.envelope e) henv fuel receiver hfuel]

/-- Witness for C1: a concrete Invoke envelope round-trips through the
wrap, the decoder and `consumeRequest`, and the receiver's sole
listener (id 7) receives exactly that envelope. -/
theorem c1_witness :
    ((⟨"ui-sync", 1, 42⟩ : IpcWebSocketMessage Nat).type =
        IpcWebSocketMessageType.Invoke)
    ∧ ((listCodec Nat).serialize (.envelope ⟨"ui-sync", 1, 42⟩) =
        .ok [.envelope ⟨"ui-sync", 1, 42⟩])
    ∧ ((listCodec Nat).deserialize [.envelope ⟨"ui-sync", 1, 42⟩] =
        .ok [.envelope ⟨"ui-sync", 1, 42⟩])
    ∧ consumeRequest (fun _ _ => []) 1 (listCodec Nat)
        ⟨[7], [], [], []⟩
        ⟨⟨IPC, "send"⟩, [.envelope ⟨"ui-sync", 1, 42⟩]⟩ =
      (.ok true, broadcast (fun _ _ => []) 1 (.envelope ⟨"ui-sync", 1, 42⟩)
        ⟨[7], [], [], []⟩)
    ∧ (consumeRequest (fun _ _ => []) 1 (listCodec Nat)
        ⟨[7], [], [], []⟩
        ⟨⟨IPC, "send"⟩, [.envelope ⟨"ui-sync", 1, 42⟩]⟩).2.deliveries =
      [(7, .envelope ⟨"ui-sync", 1, 42⟩)] :=
  ⟨rfl, rfl, rfl,
    (c1_wrap_unwrap_roundtrip (listCodec Nat) ⟨"ui-sync", 1, 42⟩
      [.envelope ⟨"ui-sync", 1, 42⟩] (fun _ _ => []) 1
      (initialState Nat (List (RpcValue Nat))) ⟨[7], [], [], []⟩
      (Or.inr (Or.inl rfl)) rfl rfl).2.2.1,
    by
      have := (c1_wrap_unwrap_roundtrip (listCodec Nat) ⟨"ui-sync", 1, 42⟩
        [.envelope ⟨"ui-sync", 1, 42⟩] (fun _ _ => []) 1
        (initialState Nat (List (RpcValue Nat))) ⟨[7], [], [], []⟩
        (Or.inr (Or.inl rfl)) rfl rfl).2.2.2 (fun _ => rfl) (by decide)
      simpa using this⟩

/-- C6: a sentinel-tagged inbound message whose payload fails to
deserialize surfaces exactly the one deserialization error (on both the
request and the response path), invokes no listener and leaves all
multiplexer state unchanged; a subsequent well-formed inbound request
on the very same state is handled normally, broadcasting its envelope
to every registered listener. -/
theorem c6_malformed_payload_isolated {P W : Type} (env : ListenerEnv P)
    (fuel : Nat) (codec : RpcMarshaling P W) (st : MobileIpcTransportState P W)
    (pBad pGood : W) (er : MarshalError) (e2 : IpcWebSocketMessage P)
    (op1 op2 : String) (raw : RpcValue P) (idv : String) (stat : Nat)
    (hbad : codec.deserialize pBad = .error er)
    (hgood : codec.deserialize pGood = .ok [.envelope e2]) :
    consumeRequest env fuel codec st ⟨⟨IPC, op1⟩, pBad⟩ = (.error er, st)
    ∧ consumeResponse env fuel codec st ⟨pBad, raw, IPC, idv, stat⟩ =
        (.error er, st)
    ∧ consumeRequest env fuel codec st ⟨⟨IPC, op2⟩, pGood⟩ =
        (.ok true, broadcast env fuel (.envelope e2) st)
    ∧ ((∀ lid, env lid (.envelope e2) = []) → st.listeners.length ≤ fuel →
        (consumeRequest env fuel codec st ⟨⟨IPC, op2⟩, pGood⟩).2.deliveries =
          st.deliveries ++ st.listeners.map (fun lid => (lid, .envelope e2))) := by
  have hc : consumeRequest env fuel codec st ⟨⟨IPC, op2⟩, pGood⟩ =
      (.ok true, broadcast env fuel (.envelope e2) st) :=
    consumeRequest_sentinel_ok env fuel codec st op2 pGood [.envelope e2] hgood
  refine ⟨consumeRequest_sentinel_error env fuel codec st op1 pBad er hbad,
    consumeResponse_sentinel_error env fuel codec st pBad raw idv stat er hbad,
    hc, ?_⟩
  intro henv hfuel
  rw [hc, broadcast_of_no_reentry env (.envelope e2) henv fuel st hfuel]

/-- Witness for C6: a codec that rejects the wire value `[]` and accepts
a singleton envelope; the malformed message leaves the one-listener
state untouched, and the following well-formed message is delivered to
that listener. -/
theorem c6_witness :
    ((headCodec Nat).deserialize [] = .error .serializationError)
    ∧ ((headCodec Nat).deserialize [.envelope ⟨"ch", 0, 3⟩] =
        .ok [.envelope ⟨"ch", 0, 3⟩])
    ∧ consumeRequest (fun _ _ => []) 1 (headCodec Nat) ⟨[4], [], [], []⟩
        ⟨⟨IPC, "send"⟩, []⟩ = (.error .serializationError, ⟨[4], [], [], []⟩)
    ∧ consumeRequest (fun _ _ => []) 1 (headCodec Nat) ⟨[4], [], [], []⟩
        ⟨⟨IPC, "send"⟩, [.envelope ⟨"ch", 0, 3⟩]⟩ =
      (.ok true, broadcast (fun _ _ => []) 1 (.envelope ⟨"ch", 0, 3⟩)
        ⟨[4], [], [], []⟩) :=
  ⟨rfl, rfl,
    (c6_malformed_payload_isolated (fun _ _ => []) 1 (headCodec Nat)
      ⟨[4], [], [], []⟩ [] [.envelope ⟨"ch", 0, 3⟩] .serializationError
      ⟨"ch", 0, 3⟩ "send" "send" .undefined "x" 0 rfl rfl).1,
    (c6_malformed_payload_isolated (fun _ _ => []) 1 (headCodec Nat)
      ⟨[4], [], [], []⟩ [] [.envelope ⟨"ch", 0, 3⟩] .serializationError
      ⟨"ch", 0, 3⟩ "send" "send" .undefined "x" 0 rfl rfl).2.2.1⟩

/-- C2 counterexample: with the spec's marshaling contract
(`deserialize(WireValue) -> value[]`, modelled by `listCodec`, for which
`deserialize (serialize v) = [v]`), `sendToFrontend` wraps envelope `e`
into a fulfillment whose `result` marshals `e`, but `consumeResponse`
broadcasts the deserialized value with NO index applied (Reporter.ts
line 112 has no `[0]`, unlike line 103): the listener receives the
one-element array containing `e`, which is not equal to `e`.  The claim
that a value equal to `e` is broadcast is therefore false at this
concrete input. -/
theorem c2_counterexample :
    sendToFrontend (listCodec Nat) ⟨"ui-sync", 3, 7⟩
        (initialState Nat (List (RpcValue Nat))) =
      .ok ⟨[], [],
        [.response ⟨[.envelope ⟨"ui-sync", 3, 7⟩], .envelope ⟨"ui-sync", 3, 7⟩,
          IPC, "ui-sync", 0⟩], []⟩
    ∧ (consumeResponse (fun _ _ => []) 1 (listCodec Nat) ⟨[0], [], [], []⟩
        ⟨[.envelope ⟨"ui-sync", 3, 7⟩], .envelope ⟨"ui-sync", 3, 7⟩,
          IPC, "ui-sync", 0⟩).2.deliveries =
      [(0, .array [.envelope ⟨"ui-sync", 3, 7⟩])]
    ∧ RpcValue.array [.envelope ⟨"ui-sync", 3, 7⟩] ≠
        RpcValue.envelope ⟨"ui-sync", 3, 7⟩ :=
  ⟨rfl, rfl, fun h => RpcValue.noConfusion h⟩

/-- C2 amended: on a sentinel fulfillment whose `result` holds the
marshaled envelope `e`, `consumeResponse` deserializes `result` (never
touching `rawResult`) and broadcasts the ENTIRE deserialized value
array — under the round-trip hypothesis, the one-element array holding
`e` — rather than `e` itself. -/
theorem c2_amended_broadcasts_array {P W : Type} (env : ListenerEnv P)
    (fuel : Nat) (codec : RpcMarshaling P W)
    (st sendSt : MobileIpcTransportState P W) (e : IpcWebSocketMessage P)
    (w : W) (raw : RpcValue P) (idv : String) (stat : Nat)
    (hser : codec.serialize (.envelope e) = .ok w)
    (hde : codec.deserialize w = .ok [.envelope e]) :
    sendToFrontend codec e sendSt =
      .ok { sendSt with frontendOutbox := sendSt.frontendOutbox ++
        [.response ⟨w, .envelope e, IPC, e.channel, 0⟩] }
    ∧ consumeResponse env fuel codec st ⟨w, raw, IPC, idv, stat⟩ =
        (.ok true, broadcast env fuel (.array [.envelope e]) st) :=
  ⟨sendToFrontend_ok codec e sendSt w hser,
    consumeResponse_sentinel_ok env fuel codec st w raw idv stat
      [.envelope e] hde⟩

/-- Witness for the amended C2 at a concrete Response envelope. -/
theorem c2_amended_witness :
    ((listCodec Nat).serialize (.envelope ⟨"ui-sync", 3, 7⟩) =
        .ok [.envelope ⟨"ui-sync", 3, 7⟩])
    ∧ ((listCodec Nat).deserialize [.envelope ⟨"ui-sync", 3, 7⟩] =
        .ok [.envelope ⟨"ui-sync", 3, 7⟩])
    ∧ consumeResponse (fun _ _ => []) 1 (listCodec Nat) ⟨[0], [], [], []⟩
        ⟨[.envelope ⟨"ui-sync", 3, 7⟩], .envelope ⟨"ui-sync", 3, 7⟩,
          IPC, "ui-sync", 0⟩ =
      (.ok true, broadcast (fun _ _ => []) 1
        (.array [.envelope ⟨"ui-sync", 3, 7⟩]) ⟨[0], [], [], []⟩) :=
  ⟨rfl, rfl,
    (c2_amended_broadcasts_array (fun _ _ => []) 1 (listCodec Nat)
      ⟨[0], [], [], []⟩ (initialState Nat (List (RpcValue Nat)))
      ⟨"ui-sync", 3, 7⟩ [.envelope ⟨"ui-sync", 3, 7⟩]
      (.envelope ⟨"ui-sync", 3, 7⟩) "ui-sync" 0 rfl rfl).2⟩

/-- C5 counterexample: `send` invokes its async helpers WITHOUT `await`
(floating promises, Reporter.ts lines 89 and 91), so when marshaling of
the outbound envelope fails the caller of `send` still observes normal
synchronous completion — the first component of the result, the
caller-visible outcome, is `Except.ok` — while the `SerializationError`
only rejects the unobserved floating promise (second component).  The
claim that the error is surfaced synchronously to the caller is false
at this concrete input (state is unchanged, as the claim also says). -/
theorem c5_counterexample :
    (failCodec Nat Unit).serialize (.envelope ⟨"ch", 0, 1⟩) =
      .error .serializationError
    ∧ send (failCodec Nat Unit) (initialState Nat Unit) ⟨"ch", 0, 1⟩ =
      (.ok (initialState Nat Unit), some .serializationError) :=
  ⟨rfl, rfl⟩

/-- C5 amended: when marshaling of an outbound envelope (of any of the
four routed types) fails, the caller of `send` observes normal
completion; the `SerializationError` surfaces only as the rejection of
the internal floating promise; the multiplexer does not retry and
mutates no internal state. -/
theorem c5_amended_floating_rejection {P W : Type} (codec : RpcMarshaling P W)
    (st : MobileIpcTransportState P W) (m : IpcWebSocketMessage P)
    (er : MarshalError)
    (htype : m.type = IpcWebSocketMessageType.Send ∨
      m.type = IpcWebSocketMessageType.Invoke ∨
      m.type = IpcWebSocketMessageType.Push ∨
      m.type = IpcWebSocketMessageType.Response)
    (hser : codec.serialize (.envelope m) = .error er) :
    send codec st m = (.ok st, some er) := by
  rcases htype with h | h | h | h
  · rw [send, if_pos (Or.inl h), sendToBackend_error codec m st er hser]
  · rw [send, if_pos (Or.inr h), sendToBackend_error codec m st er hser]
  · rw [send, if_neg (by rw [h]; decide), if_pos (Or.inl h),
      sendToFrontend_error codec m st er hser]
  · rw [send, if_neg (by rw [h]; decide), if_pos (Or.inr h),
      sendToFrontend_error codec m st er hser]

/-- Witness for the amended C5 at a concrete Invoke envelope and the
always-failing codec. -/
theorem c5_amended_witness :
    ((⟨"ch", 1, 2⟩ : IpcWebSocketMessage Nat).type =
        IpcWebSocketMessageType.Invoke)
    ∧ (failCodec Nat Unit).serialize (.envelope ⟨"ch", 1, 2⟩) =
        .error .serializationError
    ∧ send (failCodec Nat Unit) (initialState Nat Unit) ⟨"ch", 1, 2⟩ =
        (.ok (initialState Nat Unit), some .serializationError) :=
  ⟨rfl, rfl,
    c5_amended_floating_rejection (failCodec Nat Unit) (initialState Nat Unit)
      ⟨"ch", 1, 2⟩ .serializationError (Or.inr (Or.inl rfl)) rfl⟩

/-- C8 counterexample: `broadcast` iterates the LIVE `_listeners` array
(`for...of` with plain `push` registration), not a snapshot.  With one
registered listener (id 0) whose handler registers listener 1, the
live iteration reaches the appended entry: listener 1 IS invoked with
the message currently being broadcast, refuting the claim that a
listener registered during dispatch does not receive that message. -/
theorem c8_counterexample :
    (broadcast (reentrantEnv Nat) 3 (.envelope ⟨"ch", 0, 5⟩)
        (⟨[0], [], [], []⟩ : MobileIpcTransportState Nat Unit)).deliveries =
      [(0, .envelope ⟨"ch", 0, 5⟩), (1, .envelope ⟨"ch", 0, 5⟩)]
    ∧ (1, RpcValue.envelope (⟨"ch", 0, 5⟩ : IpcWebSocketMessage Nat)) ∈
        (broadcast (reentrantEnv Nat) 3 (.envelope ⟨"ch", 0, 5⟩)
          (⟨[0], [], [], []⟩ : MobileIpcTransportState Nat Unit)).deliveries :=
  ⟨rfl, List.Mem.tail _ (List.Mem.head _)⟩

/-- C8 amended: because the loop iterates the live array, a listener
registered during dispatch (here: handler 0 registers handler 1 when
invoked) DOES receive the message currently being broadcast, after all
previously registered listeners; it is also retained for subsequent
messages. -/
theorem c8_amended_live_iteration {P W : Type} (msg : RpcValue P) (k : Nat)
    (bo fo : List (MobileEncoded P W)) (ds : List (Nat × RpcValue P))
    (env : ListenerEnv P) (h0 : env 0 msg = [1]) (h1 : env 1 msg = []) :
    broadcast env (k + 3) msg ⟨[0], bo, fo, ds⟩ =
      ⟨[0, 1], bo, fo, ds ++ [(0, msg), (1, msg)]⟩ := by
  show broadcastFrom env msg (k + 2 + 1) 0 ⟨[0], bo, fo, ds⟩ = _
  rw [broadcastFrom]
  simp only [List.get?, h0]
  show broadcastFrom env msg (k + 1 + 1) 1 ⟨[0, 1], bo, fo, ds ++ [(0, msg)]⟩ = _
  rw [broadcastFrom]
  simp only [List.get?, h1]
  show broadcastFrom env msg (k + 1) 2 ⟨[0, 1], bo, fo,
    ds ++ [(0, msg)] ++ [(1, msg)]⟩ = _
  cases k with
  | zero => simp [broadcastFrom]
  | succ n =>
    rw [broadcastFrom]
    simp [List.get?]

/-- Witness for the amended C8 with the concrete reentrant environment
and minimal fuel. -/
theorem c8_amended_witness :
    (reentrantEnv Nat 0 (.envelope ⟨"ch", 0, 5⟩) = [1])
    ∧ (reentrantEnv Nat 1 (.envelope ⟨"ch", 0, 5⟩) = [])
    ∧ broadcast (reentrantEnv Nat) 3 (.envelope ⟨"ch", 0, 5⟩)
        (⟨[0], [], [], []⟩ : MobileIpcTransportState Nat Unit) =
      ⟨[0, 1], [], [],
        [(0, .envelope ⟨"ch", 0, 5⟩), (1, .envelope ⟨"ch", 0, 5⟩)]⟩ :=
  ⟨rfl, rfl,
    c8_amended_live_iteration (.envelope ⟨"ch", 0, 5⟩) 0 [] [] []
      (reentrantEnv Nat) rfl rfl⟩

end MobileIpc
